import Mathlib

/-!
Verification of the docassemblecli3 package-synchronization engine
(src/docassemblecli3/docassemblecli3.py) against its natural-language
specification.  The Python source is shallowly embedded below: each
definition carries a comment naming the source lines it translates.
-/

namespace Dacli

/-! ## Version comparison

The source compares dotted version strings through the external
`packaging.version` primitive (spec §6 treats "a version-ordering
comparison primitive for dotted version strings" as an opaque local
collaborator).  We model it on plain dotted numeric release versions:
parse on `.`, compare componentwise with implicit zero padding
(so "1.5" equals "1.5.0", as `packaging` does for release segments). -/

/-- Split a character list on '.', as Python's `str.split(".")`. -/
def split_dots : List Char → List (List Char)
  | [] => [[]]
  | c :: cs =>
      if c = '.' then [] :: split_dots cs
      else
        match split_dots cs with
        | g :: gs => (c :: g) :: gs
        | [] => [[c]]

/-- A decimal digit's value. -/
def dec_digit (c : Char) : Option Nat :=
  if '0' ≤ c ∧ c ≤ '9' then some (c.toNat - '0'.toNat) else none

/-- The numeric value of a nonempty all-digit segment. -/
def chars_to_nat : List Char → Option Nat
  | [] => none
  | l => l.foldl (fun acc c =>
      match acc, dec_digit c with
      | some n, some d => some (n * 10 + d)
      | _, _ => none) (some 0)

def parse_version (s : String) : List Nat :=
  (split_dots s.data).map (fun g => (chars_to_nat g).getD 0)

def ver_cmp : List Nat → List Nat → Ordering
  | [], ys => if ys.all (fun y => y == 0) then .eq else .lt
  | x :: xs, [] => if (x :: xs).all (fun y => y == 0) then .eq else .gt
  | x :: xs, y :: ys =>
      if x < y then .lt else if y < x then .gt else ver_cmp xs ys

def version_cmp (a b : String) : Ordering :=
  ver_cmp (parse_version a) (parse_version b)

/-! ## Restart Decision Engine, dependency-lookup branch
(docassemblecli3.py lines 391-421, `package_installer`) -/

/-- One entry of the `dependencies` dict built by the scanner
(line 376/378): `{"installed": ..., "operator": ..., "version": ...}`.
The scanner sets `operator` and `version` together (both present or
both absent). -/
structure DepInfo where
  installed : Bool
  operator : Option String
  version : Option String
  deriving DecidableEq

/-- One element of the `/api/package` JSON list: a remote package with
its `name` and `version` fields (lines 399-401). -/
structure PkgInfo where
  name : String
  version : String
  deriving DecidableEq

/-- Line 402: `re.sub(r"^docassemble\.", "docassemble-", name)` —
replace a leading "docassemble." (12 characters) by "docassemble-". -/
def alt_name (n : String) : String :=
  if n.data.take 12 = "docassemble.".data then
    String.mk ("docassemble-".data ++ n.data.drop 12)
  else n

/-- Lines 405-416: the `condition` computed for a dependency against an
installed package's version.  `condition` starts `True`; a truthy
operator replaces it by the corresponding version comparison. -/
def dep_condition (pver : String) (d : DepInfo) : Bool :=
  match d.operator with
  | none => true
  | some op =>
      if op = "" then true
      else if op = "==" then decide (version_cmp pver (d.version.getD "") = .eq)
      else if op = "<=" then decide (version_cmp pver (d.version.getD "") ≠ .gt)
      else if op = ">=" then decide (version_cmp pver (d.version.getD "") ≠ .lt)
      else if op = "<" then decide (version_cmp pver (d.version.getD "") = .lt)
      else if op = ">" then decide (version_cmp pver (d.version.getD "") = .gt)
      else true

/-- Lines 403-418: the inner loop over `dependencies.items()` for one
installed package: a dependency whose name equals the package's name or
its alternate form is marked `installed = True` when the version
condition holds (the flag is never reset). -/
def update_deps (p : PkgInfo) (deps : List (String × DepInfo)) :
    List (String × DepInfo) :=
  deps.map (fun nd =>
    if nd.1 = p.name ∨ nd.1 = alt_name p.name then
      if dep_condition p.version nd.2 then (nd.1, { nd.2 with installed := true })
      else nd
    else nd)

/-- Lines 419-420: `if this_package_name and this_package_name in
(package_info["name"], package_info["alt_name"])` — the Python
truthiness test makes an empty declared name never match. -/
def found_here (thisName : Option String) (p : PkgInfo) : Bool :=
  match thisName with
  | none => false
  | some n => !(n == "") && (n == p.name || n == alt_name p.name)

/-- Lines 400-420 as a single left fold over `installed_packages`,
carrying the dependency dict and the `already_installed` flag exactly
as the Python loop mutates them. -/
def scan_packages (pkgs : List PkgInfo) (deps : List (String × DepInfo))
    (thisName : Option String) : List (String × DepInfo) × Bool :=
  pkgs.foldl (fun acc p => (update_deps p acc.1, acc.2 || found_here thisName p))
    (deps, false)

/-- Line 421: `should_restart = bool((not already_installed and
len(dependencies) > 0) or not all(item["installed"] for item in
dependencies.values()))`, computed after the scan loop. -/
def dependency_branch (pkgs : List PkgInfo) (deps : List (String × DepInfo))
    (thisName : Option String) : Bool :=
  let s := scan_packages pkgs deps thisName
  (!s.2 && !deps.isEmpty) || !(s.1.all (fun nd => nd.2.installed))

/-- The dependency marking of lines 400-418 on its own: fold
`update_deps` over the installed packages. -/
def mark_installed (pkgs : List PkgInfo) (deps : List (String × DepInfo)) :
    List (String × DepInfo) :=
  pkgs.foldl (fun d p => update_deps p d) deps

/-- The `already_installed` computation of lines 419-420 on its own. -/
def package_found (thisName : Option String) (pkgs : List PkgInfo) : Bool :=
  pkgs.any (found_here thisName)

/-- The restart formula as the specification words it:
`mustRestart = NOT(already_installed AND all dependencies installed)`.
Stated for comparison with `dependency_branch`, which embeds the
source's actual formula. -/
def restart_formula_spec (pkgs : List PkgInfo) (deps : List (String × DepInfo))
    (thisName : Option String) : Bool :=
  !(package_found thisName pkgs
    && (mark_installed pkgs deps).all (fun nd => nd.2.installed))

/-! ## Dependency-string splitting
(docassemblecli3.py lines 370-378, `package_installer`)

Each quote-stripped entry of `install_requires` is matched against the
Python regular expression `(.*)(<=|>=|==|<|>)(.*)` with `re.search`.
The first group is greedy, so the engine commits to the *rightmost*
position at which one of the alternatives matches, trying the
alternatives in the written order `<=, >=, ==, <, >` at that position.
We embed this behavior over the string's character list (the model
lets the first group cross any character; dependency entries are
single-line). -/

/-- The regex alternation `<=|>=|==|<|>` tried at the head of a
character list, in the source's order; returns the matched operator
and the remaining characters. -/
def op_at : List Char → Option (String × List Char)
  | c1 :: c2 :: rest =>
      if c1 = '<' ∧ c2 = '=' then some ("<=", rest)
      else if c1 = '>' ∧ c2 = '=' then some (">=", rest)
      else if c1 = '=' ∧ c2 = '=' then some ("==", rest)
      else if c1 = '<' then some ("<", c2 :: rest)
      else if c1 = '>' then some (">", c2 :: rest)
      else none
  | [c] =>
      if c = '<' then some ("<", [])
      else if c = '>' then some (">", [])
      else none
  | [] => none

/-- Greedy-group-1 match of `(.*)(<=|>=|==|<|>)(.*)`: the rightmost
position at which `op_at` succeeds, returning (prefix, operator,
suffix). -/
def find_last_op : List Char → Option (List Char × String × List Char)
  | [] => none
  | c :: cs =>
      match find_last_op cs with
      | some x => some (c :: x.1, x.2.1, x.2.2)
      | none =>
          match op_at (c :: cs) with
          | some x => some ([], x.1, x.2)
          | none => none

/-- Python's `str.strip()`: drop whitespace from both ends. -/
def strip_chars (l : List Char) : List Char :=
  ((l.dropWhile Char.isWhitespace).reverse.dropWhile Char.isWhitespace).reverse

def py_strip (s : String) : String :=
  String.mk (strip_chars s.data)

/-- Lines 374-378: split a dependency entry into (name, operator,
version); group 1 and group 3 are `.strip()`-ed (line 376), a
non-matching entry keeps the whole string as the name with no operator
and no version (line 378). -/
def split_dependency (s : String) : String × Option String × Option String :=
  match find_last_op s.data with
  | some x => (py_strip (String.mk x.1), some x.2.1, some (py_strip (String.mk x.2.2)))
  | none => (s, none, none)

/-- Leftmost-occurrence split, as the specification words it
("matching the first occurrence of one of `==,<=,>=,<,>`").  Stated
for comparison with `split_dependency`, which embeds the source's
greedy match. -/
def find_first_op : List Char → Option (List Char × String × List Char)
  | [] => none
  | c :: cs =>
      match op_at (c :: cs) with
      | some x => some ([], x.1, x.2)
      | none =>
          match find_first_op cs with
          | some x => some (c :: x.1, x.2.1, x.2.2)
          | none => none

/-- The splitting contract as the specification words it: split at the
first operator occurrence. -/
def split_dependency_spec (s : String) : String × Option String × Option String :=
  match find_first_op s.data with
  | some x => (py_strip (String.mk x.1), some x.2.1, some (py_strip (String.mk x.2.2)))
  | none => (s, none, none)

/-! ## Directory pruning during the scan
(docassemblecli3.py line 359, `package_installer`)

Inside `os.walk(directory, topdown=True)` the source reassigns
`dirs[:]`, which is what prevents descent into a pruned directory:
`dirs[:] = [d for d in dirs if d not in [".git", "__pycache__",
".mypy_cache", ".venv", ".history", "build"] and not
d.endswith(".egg-info") and os.path.join(adjusted_root, d) not in
to_ignore]`. -/

/-- `os.path.join` for the two-argument uses in the walk (POSIX
separator, as on the host the tool targets). -/
def path_join (a b : String) : String :=
  if a = "" then b else a ++ "/" ++ b

/-- Line 359: the directory filter applied to `dirs` at each visited
directory; only directories it keeps are descended into and have their
files archived. -/
def keep_dirs (adjusted_root : String) (to_ignore : List String)
    (dirs : List String) : List String :=
  dirs.filter (fun d =>
    !([".git", "__pycache__", ".mypy_cache", ".venv", ".history", "build"].contains d)
    && !(d.endsWith ".egg-info")
    && !(to_ignore.contains (path_join adjusted_root d)))

/-! ## The polling loop `wait_for_server`
(docassemblecli3.py lines 297-337)

The remote side is modelled as a trace `Nat → ReqResult`: the result
of the i-th HTTP status request (a response, or a raised
`requests.exceptions.RequestException`).  A response models a reply
whose body parses as JSON, with the fields the function reads:
`status_code`, `text`, the JSON `status` string, the JSON `ok` flag
(`info.get("ok", False)`), and the optional `error_message`. -/

/-- A reply to one status request. -/
structure StatusResponse where
  status_code : Nat
  text : String
  status : String
  ok : Bool
  error_message : Option String
  deriving DecidableEq

/-- The outcome of one `requests.get` call in the loop body
(lines 307-309): a response, or a network-level exception that the
`except` clause swallows with `pass`. -/
inductive ReqResult where
  | ok (r : StatusResponse)
  | netError
  deriving DecidableEq

/-- How the `while tries < 300` loop (lines 301-316) ends:
`unbound` models the NameError raised when `r` is read without ever
having been assigned; `httpError` is the early `return` of an error
string on a non-200 status; `finished` carries the final `info`
(reached by `break` on a terminal status or by exhausting the 300
tries). -/
inductive PollExit where
  | unbound
  | httpError (code : Nat) (text : String)
  | finished (info : StatusResponse)
  deriving DecidableEq

structure PollResult where
  exit : PollExit
  requests : Nat
  sleeps : Nat
  deriving DecidableEq

/-- Lines 301-316, with `fuel = 300 - tries` remaining iterations.
`prev` is the current value of the variable `r` (none = not yet
bound); `reqs` counts issued requests, `sleeps` the executed
`time.sleep(1)` calls.  On a network exception `r` keeps its previous
value; reading it unbound raises.  When the budget runs out the final
`info` is the last parsed response. -/
def poll_loop (resp : Nat → ReqResult) :
    Nat → Option StatusResponse → Nat → Nat → PollResult
  | 0, prev, reqs, sleeps =>
      match prev with
      | some info => ⟨.finished info, reqs, sleeps⟩
      | none => ⟨.unbound, reqs, sleeps⟩
  | fuel + 1, prev, reqs, sleeps =>
      let cur := match resp reqs with
        | .ok r => some r
        | .netError => prev
      match cur with
      | none => ⟨.unbound, reqs + 1, sleeps⟩
      | some r =>
          if r.status_code ≠ 200 then ⟨.httpError r.status_code r.text, reqs + 1, sleeps⟩
          else if r.status = "completed" ∨ r.status = "unknown" then
            ⟨.finished r, reqs + 1, sleeps⟩
          else poll_loop resp fuel (some r) (reqs + 1) (sleeps + 1)

/-- What `wait_for_server` produces: the NameError of an unbound `r`,
the returned error string of a non-200 poll (code and body), or the
boolean result `True`/`False`. -/
inductive WaitOutcome where
  | unbound
  | httpError (code : Nat) (text : String)
  | success
  | failure
  deriving DecidableEq

/-- A whole run of `wait_for_server`: its outcome, the number of
status requests issued, the number of 1-second poll sleeps, and the
post-poll settle sleep (lines 324-328) — `some d` when
`time.sleep(after - before)` executes, with the elapsed polling
duration modelled by the poll-sleep count. -/
structure WaitRun where
  outcome : WaitOutcome
  requests : Nat
  sleeps : Nat
  settle : Option Nat
  deriving DecidableEq

/-- Lines 297-337: run the poll loop, compute `success`
(lines 318-323: playground mode tests `status == "completed"`, package
mode tests the `ok` flag), perform the settle sleep unless
`server_version_da == "norestart"` or the parsed server version is at
least 1.5.3 (line 324), and return. -/
def wait_for_server (playground : Bool) (resp : Nat → ReqResult)
    (server_version_da : String) : WaitRun :=
  let pr := poll_loop resp 300 none 0 0
  match pr.exit with
  | .unbound => ⟨.unbound, pr.requests, pr.sleeps, none⟩
  | .httpError c t => ⟨.httpError c t, pr.requests, pr.sleeps, none⟩
  | .finished info =>
      let success : Bool :=
        if playground then info.status == "completed" else info.ok
      let settles : Bool :=
        !(server_version_da == "norestart"
          || !(version_cmp server_version_da "1.5.3" == .lt))
      ⟨if success then .success else .failure, pr.requests, pr.sleeps,
        if settles then some pr.sleeps else none⟩

/-- A trace response is a 200 reply with status "pending" and no `ok`
flag (the non-terminal replies the polling claims quantify over). -/
def isPending : ReqResult → Prop
  | .ok r => r.status_code = 200 ∧ r.status = "pending" ∧ r.ok = false
  | .netError => False

instance : DecidablePred isPending := fun r => by
  cases r with
  | ok r => exact inferInstanceAs (Decidable (_ ∧ _ ∧ _))
  | netError => exact inferInstanceAs (Decidable False)

/-- A trace response is a 200 reply with status "completed" whose `ok`
flag reports success. -/
def isCompletedOk : ReqResult → Prop
  | .ok r => r.status_code = 200 ∧ r.status = "completed" ∧ r.ok = true
  | .netError => False

instance : DecidablePred isCompletedOk := fun r => by
  cases r with
  | ok r => exact inferInstanceAs (Decidable (_ ∧ _ ∧ _))
  | netError => exact inferInstanceAs (Decidable False)

/-! ## Playground submission and the invalid-project retry
(docassemblecli3.py lines 460-496, `package_installer`) -/

/-- An HTTP response as the submission code reads it: status code,
body text, and the body's JSON value when it parses to a string
(`json_str = none` models both a parse failure — the code then uses
`""` — and a non-string JSON value; either compares unequal to
"Invalid project."). -/
structure HttpResp where
  status : Nat
  text : String
  json_str : Option String
  deriving DecidableEq

/-- How the playground submission sequence ends: an error string
returned to the caller, a 200 response handed on to the task poll
(lines 485-491), or the synchronous 204 success (line 492). -/
inductive PgSubmit where
  | err (msg : String)
  | task (r : HttpResp)
  | okNoTask
  deriving DecidableEq

/-- Whether a submission outcome is an error surfaced to the caller. -/
def PgSubmit.is_err : PgSubmit → Bool
  | .err _ => true
  | _ => false

/-- Counting record for one playground submission sequence. -/
structure PgRun where
  result : PgSubmit
  installs : Nat
  creates : Nat
  deriving DecidableEq

/-- Lines 485-496: the shared handling of the final submission
response — 200 proceeds to polling with the task id, 204 is a
synchronous success, anything else is returned as an error string. -/
def pg_finish (r : HttpResp) : PgSubmit :=
  if r.status = 200 then .task r
  else if r.status = 204 then .okNoTask
  else .err ("playground_install POST returned " ++ toString r.status ++ ": " ++ r.text)

/-- Lines 460-496: submit the archive to `/api/playground_install`
(response `r1`).  On a 400: if no "project" field was set or the JSON
body is not "Invalid project.", return the error (lines 470-471);
otherwise POST `/api/playground/project` (response `create2`),
return an error unless it is 204 (lines 477-478), else resubmit once
(response `r2`) and fall into the shared handling.  `has_project`
models `"project" in data` (set when the playground name is not
"default", line 447-448). -/
def playground_submit (has_project : Bool) (r1 create2 r2 : HttpResp) : PgRun :=
  if r1.status = 400 then
    if !has_project || !(r1.json_str == some "Invalid project.") then
      ⟨.err ("playground_install POST returned 400: " ++ r1.text), 1, 0⟩
    else if create2.status ≠ 204 then
      ⟨.err ("needed to create playground project but POST to api/playground/project returned "
        ++ toString create2.status ++ ": " ++ create2.text), 1, 1⟩
    else ⟨pg_finish r2, 2, 1⟩
  else ⟨pg_finish r1, 1, 0⟩

/-! ## Package-mode submission, cache clear and return value
(docassemblecli3.py lines 502-522, `package_installer`) -/

/-- What the package-mode tail of `package_installer` evaluates to: an
error string, or the final `return 0`. -/
inductive InstallerExit where
  | err (msg : String)
  | retcode (n : Nat)
  deriving DecidableEq

/-- A package-mode run: its returned value and whether the
`/api/clear_cache` POST was issued. -/
structure PkgRun where
  result : InstallerExit
  clear_issued : Bool
  deriving DecidableEq

/-- Lines 502-522: POST the archive to `/api/package` (response
`post`); non-200 returns an error string.  Otherwise `wait_for_server`
runs (outcome `ws`; an unbound-variable NameError propagates out of
`package_installer`, modelled as `none`).  Its boolean is only used to
decide whether to echo "Installed." — it does not steer control flow.
Then, iff `should_restart` is false, POST `/api/clear_cache`
(response `clear`), returning an error string unless it is 204.
Finally `return 0`. -/
def package_mode (post : HttpResp) (ws : WaitOutcome) (should_restart : Bool)
    (clear : HttpResp) : Option PkgRun :=
  if post.status ≠ 200 then
    some ⟨.err ("package POST returned " ++ toString post.status ++ ": " ++ post.text), false⟩
  else
    match ws with
    | .unbound => none
    | _ =>
        if !should_restart then
          if clear.status ≠ 204 then
            some ⟨.err ("clear_cache returned " ++ toString clear.status ++ ": " ++ clear.text), true⟩
          else some ⟨.retcode 0, true⟩
        else some ⟨.retcode 0, false⟩

/-! ## The watch drain loop
(docassemblecli3.py lines 611-633, `watch`)

The `try` block wraps the entire `while True` loop; `except Exception`
sits outside the loop, so the first synchronization error leaves the
loop, is logged, and the `finally` block stops the observer and
returns.  We model the loop against a finite schedule of ready
batches, each of which either synchronizes cleanly or raises. -/

inductive SyncOutcome where
  | ok
  | raises
  deriving DecidableEq

/-- Lines 611-633: the number of synchronization runs the session
performs on a schedule of batches.  A clean batch is followed by the
next tick; a raising batch ends the session (the exception propagates
past the loop into the handler at line 628). -/
def watch_drain : List SyncOutcome → Nat
  | [] => 0
  | .ok :: rest => watch_drain rest + 1
  | .raises :: _ => 1

/-- Modelled from the spec: the drain loop the specification
describes, in which an error from a single synchronization run is
caught inside the loop so the next batch is still processed — every
scheduled batch leads to a synchronization run. -/
def watch_drain_spec : List SyncOutcome → Nat
  | [] => 0
  | _ :: rest => watch_drain_spec rest + 1

/-! ## Theorems -/

/-- The single fold of lines 400-420 decomposes into the dependency
marking and the `already_installed` search performed independently. -/
theorem scan_packages_spec (n : Option String) :
    ∀ (pkgs : List PkgInfo) (d : List (String × DepInfo)) (b : Bool),
      pkgs.foldl (fun acc p => (update_deps p acc.1, acc.2 || found_here n p)) (d, b)
        = (mark_installed pkgs d, b || pkgs.any (found_here n))
  | [], d, b => by simp [mark_installed]
  | p :: ps, d, b => by
      simp only [List.foldl_cons, List.any_cons]
      rw [scan_packages_spec n ps (update_deps p d) (b || found_here n p)]
      simp [mark_installed, Bool.or_assoc]

/-- C1 (counterexample): with a declared package name, no declared
dependencies, and an installed-package list that does not contain the
package, line 421 computes `should_restart = False`, while the claimed
formula `NOT(already_installed AND all dependencies installed)` gives
`True`.  The claim's "in particular" case is exactly this input. -/
theorem C1_dependency_branch_counterexample :
    dependency_branch [] [] (some "docassemble.foo") = false ∧
    restart_formula_spec [] [] (some "docassemble.foo") = true := by decide

/-- C1 (amended): in the dependency-lookup branch the computed restart
flag equals `(NOT already_installed AND dependencies nonempty) OR NOT
(every dependency marked installed)` — it differs from the claimed
formula exactly when the dependency map is empty: a declared but
not-installed package with no dependencies does not force a restart. -/
theorem C1_dependency_branch_amended
    (pkgs : List PkgInfo) (deps : List (String × DepInfo)) (thisName : Option String) :
    dependency_branch pkgs deps thisName
      = ((!package_found thisName pkgs && !deps.isEmpty)
          || !((mark_installed pkgs deps).all (fun nd => nd.2.installed))) := by
  unfold dependency_branch scan_packages
  rw [scan_packages_spec]
  simp [package_found]

/-- C7 (counterexample): a schedule whose first batch raises is
followed by a clean batch; the source performs one synchronization run
and ends the session, while the claimed per-batch catch would perform
two. -/
theorem C7_watch_counterexample :
    watch_drain [.raises, .ok] = 1 ∧ watch_drain_spec [.raises, .ok] = 2 ∧
    watch_drain [.raises, .ok] ≠ watch_drain_spec [.raises, .ok] := by decide

/-- C7 (amended): the `try` of lines 611-628 wraps the whole drain
loop, so a raising synchronization run is caught once at the top and
ends the watch session: an error-free schedule is processed in full,
and a schedule whose first raising batch follows `pre` clean batches
performs exactly `pre.length + 1` runs, abandoning every later
batch. -/
theorem C7_watch_amended :
    (∀ bs : List SyncOutcome, SyncOutcome.raises ∉ bs →
       watch_drain bs = bs.length) ∧
    (∀ pre post : List SyncOutcome, SyncOutcome.raises ∉ pre →
       watch_drain (pre ++ .raises :: post) = pre.length + 1) := by
  constructor
  · intro bs h
    induction bs with
    | nil => rfl
    | cons b rest ih =>
        cases b with
        | ok =>
            simp only [List.mem_cons, not_or] at h
            simp [watch_drain, ih h.2]
        | raises => exact absurd (List.mem_cons_self _ _) h
  · intro pre post h
    induction pre with
    | nil => rfl
    | cons b rest ih =>
        cases b with
        | ok =>
            simp only [List.mem_cons, not_or] at h
            show watch_drain (rest ++ SyncOutcome.raises :: post) + 1
              = rest.length + 1 + 1
            rw [ih h.2]
        | raises => exact absurd (List.mem_cons_self _ _) h

/-- C7 (witness): a clean batch, then a raising one, then a clean one:
the session performs two runs. -/
theorem C7_watch_amended_witness :
    watch_drain [SyncOutcome.ok, .raises, .ok] = 2 :=
  C7_watch_amended.2 [.ok] [.ok] (by decide)

/-- If no position of the list matches an operator, the greedy match
fails. -/
theorem find_last_op_eq_none (l : List Char)
    (h : ∀ i, op_at (l.drop i) = none) : find_last_op l = none := by
  induction l with
  | nil => rfl
  | cons c cs ih =>
      have h0 : op_at (c :: cs) = none := h 0
      have hrest : find_last_op cs = none := by
        refine ih (fun i => ?_)
        have := h (i + 1)
        simpa [List.drop_succ_cons] using this
      simp [find_last_op, hrest, h0]

/-- If position `i` matches an operator and no later position does,
the greedy match splits the list at `i`. -/
theorem find_last_op_eq_some :
    ∀ (l : List Char) (i : Nat) (op : String) (post : List Char),
      op_at (l.drop i) = some (op, post) →
      (∀ j, i < j → op_at (l.drop j) = none) →
      find_last_op l = some (l.take i, op, post)
  | [], i, op, post, hi, _ => by
      rw [List.drop_nil] at hi
      simp [op_at] at hi
  | c :: cs, 0, op, post, hi, hmax => by
      have hrest : find_last_op cs = none := by
        refine find_last_op_eq_none cs (fun j => ?_)
        have := hmax (j + 1) (Nat.succ_pos j)
        simpa [List.drop_succ_cons] using this
      simp only [List.drop_zero] at hi
      simp [find_last_op, hrest, hi]
  | c :: cs, i + 1, op, post, hi, hmax => by
      have hi' : op_at (cs.drop i) = some (op, post) := by
        simpa [List.drop_succ_cons] using hi
      have hmax' : ∀ j, i < j → op_at (cs.drop j) = none := by
        intro j hj
        have := hmax (j + 1) (by omega)
        simpa [List.drop_succ_cons] using this
      have := find_last_op_eq_some cs i op post hi' hmax'
      simp [find_last_op, this, List.take_succ_cons]

/-- C3 (counterexample): on the dependency string "a>=1>=2", which
contains two operator occurrences, the source splits at the *last*
occurrence — name "a>=1", not the claimed "a" (the regex's first group
`(.*)` is greedy). -/
theorem C3_split_counterexample :
    split_dependency "a>=1>=2" = ("a>=1", some ">=", some "2") ∧
    split_dependency_spec "a>=1>=2" = ("a", some ">=", some "1>=2") ∧
    split_dependency "a>=1>=2" ≠ split_dependency_spec "a>=1>=2" := by decide

/-- C3 (amended): the scanner splits each dependency string at the
*last* (rightmost) position where one of `<=, >=, ==, <, >` matches —
trying the alternatives in that order at the chosen position — with
group 1 and group 3 stripped of surrounding whitespace; a string with
no operator occurrence yields operator = None and version = None. -/
theorem C3_split_amended :
    (∀ s : String, (∀ i, i < s.data.length → op_at (s.data.drop i) = none) →
       split_dependency s = (s, none, none)) ∧
    (∀ (s : String) (i : Nat) (op : String) (post : List Char),
       op_at (s.data.drop i) = some (op, post) →
       (∀ j, j < s.data.length → i < j → op_at (s.data.drop j) = none) →
       split_dependency s
         = (py_strip (String.mk (s.data.take i)), some op,
            some (py_strip (String.mk post)))) := by
  constructor
  · intro s h
    have h' : ∀ i, op_at (s.data.drop i) = none := by
      intro i
      by_cases hlt : i < s.data.length
      · exact h i hlt
      · rw [List.drop_eq_nil_of_le (by omega)]
        rfl
    simp [split_dependency, find_last_op_eq_none s.data h']
  · intro s i op post hi hmax
    have hmax' : ∀ j, i < j → op_at (s.data.drop j) = none := by
      intro j hj
      by_cases hlt : j < s.data.length
      · exact hmax j hlt hj
      · rw [List.drop_eq_nil_of_le (by omega)]
        rfl
    simp [split_dependency, find_last_op_eq_some s.data i op post hi hmax']

/-- C3 (witness): the single-operator string "a<=1" matches at
position 1 and at no later position; the split is ("a", "<=", "1"). -/
theorem C3_split_amended_witness :
    split_dependency "a<=1"
      = (py_strip (String.mk ("a<=1".data.take 1)), some "<=",
         some (py_strip (String.mk ['1']))) :=
  C3_split_amended.2 "a<=1" 1 "<=" ['1'] (by decide) (by decide)

/-- C4 (counterexample): with an empty version-control ignore listing,
directories named "dist", "venv" and "env" survive the `dirs[:]`
filter of line 359 — they are descended into, contradicting the
claim that they are pruned unconditionally. -/
theorem C4_prune_counterexample :
    "dist" ∈ keep_dirs "" [] ["dist", "venv", "env"] ∧
    "venv" ∈ keep_dirs "" [] ["dist", "venv", "env"] ∧
    "env" ∈ keep_dirs "" [] ["dist", "venv", "env"] := by decide

/-- C4 (amended): the walk prunes unconditionally exactly the
directory names ".git", "__pycache__", ".mypy_cache", ".venv",
".history" and "build", plus any name ending in ".egg-info"; it also
prunes any directory whose `adjusted_root`-joined path appears in the
version-control ignore listing.  Directories named "dist", "venv" or
"env" are *not* in the unconditional list: they are kept exactly when
their joined path is not ignore-listed. -/
theorem C4_prune_amended :
    (∀ (root : String) (ign dirs : List String) (d : String),
       (d ∈ [".git", "__pycache__", ".mypy_cache", ".venv", ".history", "build"]
         ∨ d.endsWith ".egg-info" = true) →
       d ∉ keep_dirs root ign dirs) ∧
    (∀ (root : String) (ign dirs : List String) (d : String),
       path_join root d ∈ ign → d ∉ keep_dirs root ign dirs) ∧
    (∀ (root : String) (ign dirs : List String) (d : String),
       d ∈ ["dist", "venv", "env"] →
       (d ∈ keep_dirs root ign dirs ↔ d ∈ dirs ∧ path_join root d ∉ ign)) := by
  refine ⟨?_, ?_, ?_⟩
  · intro root ign dirs d hd hmem
    rw [keep_dirs, List.mem_filter] at hmem
    have hp := hmem.2
    rcases hd with hd | hd
    · rw [show ([".git", "__pycache__", ".mypy_cache", ".venv", ".history",
          "build"].contains d) = true from List.elem_iff.mpr hd] at hp
      simp at hp
    · rw [hd] at hp
      simp at hp
  · intro root ign dirs d hd hmem
    rw [keep_dirs, List.mem_filter] at hmem
    have hp := hmem.2
    rw [show ign.contains (path_join root d) = true from List.elem_iff.mpr hd] at hp
    simp at hp
  · intro root ign dirs d hd
    simp only [List.mem_cons, List.not_mem_nil, or_false] at hd
    have hhard : [".git", "__pycache__", ".mypy_cache", ".venv", ".history",
        "build"].contains d = false := by
      rcases hd with rfl | rfl | rfl <;> decide
    have hegg : d.endsWith ".egg-info" = false := by
      rcases hd with rfl | rfl | rfl <;> decide
    rw [keep_dirs, List.mem_filter, hhard, hegg]
    constructor
    · rintro ⟨hdirs, hp⟩
      refine ⟨hdirs, fun hin => ?_⟩
      rw [show ign.contains (path_join root d) = true from List.elem_iff.mpr hin] at hp
      simp at hp
    · rintro ⟨hdirs, hnin⟩
      have hc : ign.contains (path_join root d) = false := by
        cases hcv : ign.contains (path_join root d) with
        | false => rfl
        | true => exact absurd (List.elem_iff.mp hcv) hnin
      exact ⟨hdirs, by simpa [hc] using hnin⟩

/-- C4 (witness): "build" is pruned even though it is not
ignore-listed, and "dist" is kept when not ignore-listed. -/
theorem C4_prune_amended_witness :
    ("build" ∉ keep_dirs "" [] ["build", "dist"]) ∧
    ("dist" ∈ keep_dirs "" [] ["build", "dist"] ↔
       "dist" ∈ ["build", "dist"] ∧ path_join "" "dist" ∉ ([] : List String)) :=
  ⟨C4_prune_amended.1 "" [] ["build", "dist"] "build" (Or.inl (by decide)),
   C4_prune_amended.2.2 "" [] ["build", "dist"] "dist" (by decide)⟩

/-- Running the poll loop over `k` pending replies followed by a
successful completed reply: it consumes `k + 1` requests, sleeps `k`
times, and finishes on the completed reply. -/
theorem poll_loop_pending_then_done (resp : Nat → ReqResult) :
    ∀ (k fuel reqs sleeps : Nat) (prev : Option StatusResponse),
      k < fuel →
      (∀ i, i < k → isPending (resp (reqs + i))) →
      isCompletedOk (resp (reqs + k)) →
      ∃ r, poll_loop resp fuel prev reqs sleeps
          = ⟨.finished r, reqs + k + 1, sleeps + k⟩
        ∧ r.status = "completed" ∧ r.ok = true
  | 0, 0, _, _, _, hk, _, _ => absurd hk (by omega)
  | 0, fuel + 1, reqs, sleeps, prev, _, _, hC => by
      cases hr : resp (reqs + 0) with
      | netError => rw [hr] at hC; exact absurd hC (by simp [isCompletedOk])
      | ok r =>
          rw [hr] at hC
          obtain ⟨h200, hst, hok⟩ := hC
          rw [show reqs + 0 = reqs from rfl] at hr
          refine ⟨r, ?_, hst, hok⟩
          simp [poll_loop, hr, h200, hst]
  | k + 1, 0, _, _, _, hk, _, _ => absurd hk (by omega)
  | k + 1, fuel + 1, reqs, sleeps, prev, hk, hP, hC => by
      have h0 := hP 0 (by omega)
      cases hr : resp (reqs + 0) with
      | netError => rw [hr] at h0; exact absurd h0 (by simp [isPending])
      | ok p =>
          rw [hr] at h0
          obtain ⟨p200, pst, pok⟩ := h0
          rw [show reqs + 0 = reqs from rfl] at hr
          have hP' : ∀ i, i < k → isPending (resp (reqs + 1 + i)) := by
            intro i hi
            have := hP (i + 1) (by omega)
            rwa [show reqs + (i + 1) = reqs + 1 + i from by omega] at this
          have hC' : isCompletedOk (resp (reqs + 1 + k)) := by
            rwa [show reqs + (k + 1) = reqs + 1 + k from by omega] at hC
          obtain ⟨r, hrun, hst, hok⟩ :=
            poll_loop_pending_then_done resp k fuel (reqs + 1) (sleeps + 1)
              (some p) (by omega) hP' hC'
          refine ⟨r, ?_, hst, hok⟩
          rw [show reqs + (k + 1) + 1 = reqs + 1 + k + 1 from by omega,
            show sleeps + (k + 1) = sleeps + 1 + k from by omega]
          rw [← hrun]
          simp [poll_loop, hr, p200, pst]

/-- Running the poll loop over pending replies only: the whole fuel
budget is consumed, one request and one sleep per iteration, and the
loop finishes holding the last pending reply. -/
theorem poll_loop_all_pending (resp : Nat → ReqResult) :
    ∀ (fuel reqs sleeps : Nat) (prev : Option StatusResponse),
      0 < fuel →
      (∀ i, i < fuel → isPending (resp (reqs + i))) →
      ∃ r, poll_loop resp fuel prev reqs sleeps
          = ⟨.finished r, reqs + fuel, sleeps + fuel⟩
        ∧ r.status = "pending" ∧ r.ok = false
  | 0, _, _, _, hf, _ => absurd hf (by omega)
  | fuel + 1, reqs, sleeps, prev, _, hP => by
      have h0 := hP 0 (by omega)
      cases hr : resp (reqs + 0) with
      | netError => rw [hr] at h0; exact absurd h0 (by simp [isPending])
      | ok p =>
          rw [hr] at h0
          obtain ⟨p200, pst, pok⟩ := h0
          rw [show reqs + 0 = reqs from rfl] at hr
          cases fuel with
          | zero =>
              refine ⟨p, ?_, pst, pok⟩
              simp [poll_loop, hr, p200, pst]
          | succ fuel' =>
              have hP' : ∀ i, i < fuel' + 1 → isPending (resp (reqs + 1 + i)) := by
                intro i hi
                have := hP (i + 1) (by omega)
                rwa [show reqs + (i + 1) = reqs + 1 + i from by omega] at this
              obtain ⟨r, hrun, hst, hok⟩ :=
                poll_loop_all_pending resp (fuel' + 1) (reqs + 1) (sleeps + 1)
                  (some p) (by omega) hP'
              refine ⟨r, ?_, hst, hok⟩
              rw [show reqs + (fuel' + 1 + 1) = reqs + 1 + (fuel' + 1) from by omega,
                show sleeps + (fuel' + 1 + 1) = sleeps + 1 + (fuel' + 1) from by omega]
              rw [← hrun]
              simp [poll_loop, hr, p200, pst]

/-- C2: over a trace of `k` pending replies followed by a successful
completed reply (k within the 300-try budget), `wait_for_server`
issues exactly `k + 1` status requests and returns success; over a
trace of 300 consecutive pending replies it stops at the budget,
having issued exactly 300 requests, and returns failure — an ordinary
`False` return, not an exception. -/
theorem C2_polling_requests :
    (∀ (playground : Bool) (resp : Nat → ReqResult) (v : String) (k : Nat),
       k < 300 →
       (∀ i, i < k → isPending (resp i)) →
       isCompletedOk (resp k) →
       (wait_for_server playground resp v).requests = k + 1 ∧
       (wait_for_server playground resp v).outcome = .success) ∧
    (∀ (playground : Bool) (resp : Nat → ReqResult) (v : String),
       (∀ i, i < 300 → isPending (resp i)) →
       (wait_for_server playground resp v).requests = 300 ∧
       (wait_for_server playground resp v).outcome = .failure) := by
  constructor
  · intro playground resp v k hk hP hC
    obtain ⟨r, hrun, hst, hok⟩ :=
      poll_loop_pending_then_done resp k 300 0 0 none hk
        (by simpa using hP) (by simpa using hC)
    rw [wait_for_server, hrun]
    cases playground <;> simp [hst, hok]
  · intro playground resp v hP
    obtain ⟨r, hrun, hst, hok⟩ :=
      poll_loop_all_pending resp 300 0 0 none (by omega) (by simpa using hP)
    rw [wait_for_server, hrun]
    cases playground <;> simp [hst, hok]

/-- C2 (witness): two pending replies then a completed one — three
requests, success. -/
theorem C2_polling_requests_witness :
    (wait_for_server true
        (fun i => if i < 2 then .ok ⟨200, "", "pending", false, none⟩
                  else .ok ⟨200, "", "completed", true, none⟩) "0").requests = 3 ∧
    (wait_for_server true
        (fun i => if i < 2 then .ok ⟨200, "", "pending", false, none⟩
                  else .ok ⟨200, "", "completed", true, none⟩) "0").outcome = .success :=
  C2_polling_requests.1 true
    (fun i => if i < 2 then .ok ⟨200, "", "pending", false, none⟩
              else .ok ⟨200, "", "completed", true, none⟩) "0" 2
    (by decide) (by decide) (by decide)

/-- C8: whenever the poll phase completes with a boolean result, the
settle sleep — of the polling phase's own duration — executes exactly
when the server version is not the "norestart" sentinel and is
strictly below 1.5.3. -/
theorem C8_settle_sleep (playground : Bool) (resp : Nat → ReqResult) (v : String)
    (h : (wait_for_server playground resp v).outcome = .success ∨
         (wait_for_server playground resp v).outcome = .failure) :
    (wait_for_server playground resp v).settle
      = if v ≠ "norestart" ∧ version_cmp v "1.5.3" = .lt
        then some (wait_for_server playground resp v).sleeps else none := by
  rw [wait_for_server] at h ⊢
  rcases hE : (poll_loop resp 300 none 0 0).exit with _ | ⟨c, t⟩ | info
  · rw [hE] at h
    simp at h
  · rw [hE] at h
    simp at h
  · by_cases hv : v = "norestart"
    · subst hv
      simp
    · have hvb : (v == "norestart") = false := by
        simpa using hv
      by_cases hcmp : version_cmp v "1.5.3" = .lt
      · simp [hvb, hcmp, hv]
        decide
      · have hbeq : (version_cmp v "1.5.3" == Ordering.lt) = false := by
          cases hc2 : version_cmp v "1.5.3" with
          | lt => exact absurd hc2 hcmp
          | eq => rfl
          | gt => rfl
        simp [hvb, hbeq, hcmp, hv]

/-- C8 (witness): a one-reply successful run against server version
"1.0" (< 1.5.3, not "norestart") settles for the polling duration. -/
theorem C8_settle_sleep_witness :
    (wait_for_server true (fun _ => .ok ⟨200, "", "completed", true, none⟩) "1.0").settle
      = if ("1.0" ≠ "norestart" ∧ version_cmp "1.0" "1.5.3" = .lt)
        then some (wait_for_server true
          (fun _ => .ok ⟨200, "", "completed", true, none⟩) "1.0").sleeps else none :=
  C8_settle_sleep true (fun _ => .ok ⟨200, "", "completed", true, none⟩) "1.0"
    (Or.inl (by decide))

/-- The poll loop only reads the trace at indices from the current
request count upward. -/
theorem poll_loop_congr (resp resp' : Nat → ReqResult) :
    ∀ (fuel : Nat) (prev : Option StatusResponse) (reqs sleeps : Nat),
      (∀ j, reqs ≤ j → resp j = resp' j) →
      poll_loop resp fuel prev reqs sleeps = poll_loop resp' fuel prev reqs sleeps
  | 0, prev, reqs, sleeps, _ => rfl
  | fuel + 1, prev, reqs, sleeps, h => by
      have h0 : resp reqs = resp' reqs := h reqs (Nat.le_refl _)
      have hrec : ∀ prev', poll_loop resp fuel prev' (reqs + 1) (sleeps + 1)
          = poll_loop resp' fuel prev' (reqs + 1) (sleeps + 1) :=
        fun prev' => poll_loop_congr resp resp' fuel prev' (reqs + 1) (sleeps + 1)
          (fun j hj => h j (by omega))
      simp only [poll_loop, h0]
      cases resp' reqs with
      | netError =>
          cases prev with
          | none => rfl
          | some r =>
              by_cases h200 : r.status_code ≠ 200 <;>
                by_cases hterm : r.status = "completed" ∨ r.status = "unknown" <;>
                  simp [h200, hterm, hrec]
      | ok r =>
          by_cases h200 : r.status_code ≠ 200 <;>
            by_cases hterm : r.status = "completed" ∨ r.status = "unknown" <;>
              simp [h200, hterm, hrec]

/-- C10: (1) when the very first status request raises a network
exception, the `except: pass` swallows it and the following read of
`r` raises an unbound-variable error — the run is the NameError
outcome, for every continuation of the trace; (2) when a later
request raises while `r` holds the previous iteration's reply, the
loop proceeds exactly as if that stale reply had just been received
again. -/
theorem C10_unbound_and_stale :
    (∀ (playground : Bool) (resp : Nat → ReqResult) (v : String),
       resp 0 = .netError →
       (wait_for_server playground resp v).outcome = .unbound) ∧
    (∀ (resp resp' : Nat → ReqResult) (r : StatusResponse)
       (fuel reqs sleeps : Nat),
       resp reqs = .netError → resp' reqs = .ok r →
       (∀ j, j ≠ reqs → resp' j = resp j) →
       poll_loop resp (fuel + 1) (some r) reqs sleeps
         = poll_loop resp' (fuel + 1) (some r) reqs sleeps) := by
  constructor
  · intro playground resp v h
    have hrun : poll_loop resp 300 none 0 0 = ⟨.unbound, 1, 0⟩ := by
      rw [show (300 : Nat) = 299 + 1 from rfl]
      simp [poll_loop, h]
    rw [wait_for_server, hrun]
  · intro resp resp' r fuel reqs sleeps hne hok hagree
    have hrec : ∀ prev', poll_loop resp fuel prev' (reqs + 1) (sleeps + 1)
        = poll_loop resp' fuel prev' (reqs + 1) (sleeps + 1) :=
      fun prev' => poll_loop_congr resp resp' fuel prev' (reqs + 1) (sleeps + 1)
        (fun j hj => (hagree j (by omega)).symm)
    simp only [poll_loop, hne, hok]
    by_cases h200 : r.status_code ≠ 200 <;>
      by_cases hterm : r.status = "completed" ∨ r.status = "unknown" <;>
        simp [h200, hterm, hrec]

/-- C10 (witness): an all-raising trace makes the first read of `r`
fail: the run is the unbound-variable outcome. -/
theorem C10_unbound_and_stale_witness :
    (wait_for_server true (fun _ => ReqResult.netError) "0").outcome = .unbound :=
  C10_unbound_and_stale.1 true (fun _ => ReqResult.netError) "0" rfl

/-- C5: for a first playground submission answered with HTTP 400: when
a project field was set and the body is "Invalid project.", the client
creates the project and resubmits exactly once, and a 400 on the
resubmission is surfaced as a hard failure with no further retry; a
non-204 reply to the project creation is surfaced with no
resubmission; a 400 with any other body, or with no project field set,
is surfaced immediately with no create and no resubmission. -/
theorem C5_invalid_project_retry (has_project : Bool) (r1 create2 r2 : HttpResp)
    (h400 : r1.status = 400) :
    ((has_project = true ∧ r1.json_str = some "Invalid project.") →
       ((create2.status = 204 →
           (playground_submit has_project r1 create2 r2).installs = 2 ∧
           (playground_submit has_project r1 create2 r2).creates = 1 ∧
           (r2.status = 400 →
              (playground_submit has_project r1 create2 r2).result.is_err = true)) ∧
        (create2.status ≠ 204 →
           (playground_submit has_project r1 create2 r2).installs = 1 ∧
           (playground_submit has_project r1 create2 r2).creates = 1 ∧
           (playground_submit has_project r1 create2 r2).result.is_err = true))) ∧
    ((has_project = false ∨ r1.json_str ≠ some "Invalid project.") →
       (playground_submit has_project r1 create2 r2).installs = 1 ∧
       (playground_submit has_project r1 create2 r2).creates = 0 ∧
       (playground_submit has_project r1 create2 r2).result.is_err = true) := by
  constructor
  · rintro ⟨hp, hjs⟩
    subst hp
    have hcond : (!true || !(r1.json_str == some "Invalid project.")) = false := by
      rw [hjs]
      decide
    constructor
    · intro hc
      have h204 : ¬create2.status ≠ 204 := by omega
      refine ⟨?_, ?_, ?_⟩
      · simp [playground_submit, h400, hcond, h204, hjs]
      · simp [playground_submit, h400, hcond, h204, hjs]
      · intro hr2
        simp [playground_submit, h400, hcond, h204, hjs, pg_finish, hr2,
          PgSubmit.is_err]
    · intro hc
      refine ⟨?_, ?_, ?_⟩ <;>
        simp [playground_submit, h400, hcond, hc, hjs, PgSubmit.is_err]
  · intro hother
    rcases hother with hp | hjs
    · subst hp
      refine ⟨?_, ?_, ?_⟩ <;> simp [playground_submit, h400, PgSubmit.is_err]
    · refine ⟨?_, ?_, ?_⟩ <;> simp [playground_submit, h400, hjs, PgSubmit.is_err]

/-- C5 (witness): a 400 "Invalid project." first reply with a project
field set, a 204 project creation, and a second 400 reply: two
submissions, one creation, surfaced error. -/
theorem C5_invalid_project_retry_witness :
    (playground_submit true ⟨400, "x", some "Invalid project."⟩ ⟨204, "", none⟩
        ⟨400, "y", none⟩).installs = 2 ∧
    (playground_submit true ⟨400, "x", some "Invalid project."⟩ ⟨204, "", none⟩
        ⟨400, "y", none⟩).creates = 1 ∧
    (playground_submit true ⟨400, "x", some "Invalid project."⟩ ⟨204, "", none⟩
        ⟨400, "y", none⟩).result.is_err = true := by
  have h := ((C5_invalid_project_retry true ⟨400, "x", some "Invalid project."⟩
      ⟨204, "", none⟩ ⟨400, "y", none⟩ rfl).1 ⟨rfl, rfl⟩).1 rfl
  exact ⟨h.1, h.2.1, h.2.2 rfl⟩

/-- C6 (counterexample): a non-restarting install whose polling phase
reports failure still issues the cache-clear request — the code issues
it whenever `should_restart` is false, regardless of the install
outcome, refuting "if and only if that install completed
successfully". -/
theorem C6_clear_cache_counterexample :
    package_mode ⟨200, "", none⟩ .failure false ⟨204, "", none⟩
      = some ⟨.retcode 0, true⟩ := by decide

/-- C6 (amended): after a 200 submission, the cache-clear request is
issued if and only if the install was non-restarting — independent of
the polling outcome; a non-204 reply to the cache-clear call is
returned as an error. -/
theorem C6_clear_cache_amended (post : HttpResp) (ws : WaitOutcome) (sr : Bool)
    (clear : HttpResp) (hws : ws ≠ .unbound) :
    (∃ run, package_mode post ws sr clear = some run ∧
       run.clear_issued = ((post.status == 200) && !sr)) ∧
    (post.status = 200 → sr = false → clear.status ≠ 204 →
       package_mode post ws sr clear
         = some ⟨.err ("clear_cache returned " ++ toString clear.status ++ ": "
             ++ clear.text), true⟩) := by
  by_cases hpost : post.status = 200
  · have hb : (post.status == 200) = true := by
      rw [hpost]
      decide
    have hne : ¬post.status ≠ 200 := by omega
    have hrun : package_mode post ws sr clear =
        some (if sr then ⟨.retcode 0, false⟩
              else if clear.status ≠ 204 then
                ⟨.err ("clear_cache returned " ++ toString clear.status ++ ": "
                  ++ clear.text), true⟩
              else ⟨.retcode 0, true⟩) := by
      cases ws with
      | unbound => exact absurd rfl hws
      | httpError c t =>
          cases sr <;> by_cases hclear : clear.status ≠ 204 <;>
            simp [package_mode, hne, hclear]
      | success =>
          cases sr <;> by_cases hclear : clear.status ≠ 204 <;>
            simp [package_mode, hne, hclear]
      | failure =>
          cases sr <;> by_cases hclear : clear.status ≠ 204 <;>
            simp [package_mode, hne, hclear]
    constructor
    · rw [hrun]
      refine ⟨_, rfl, ?_⟩
      cases sr <;> by_cases hclear : clear.status ≠ 204 <;> simp [hb, hclear]
    · intro _ hsr hclear
      subst hsr
      rw [hrun]
      simp [hclear]
  · have hb : (post.status == 200) = false := by
      simpa using hpost
    constructor
    · refine ⟨⟨.err ("package POST returned " ++ toString post.status ++ ": "
          ++ post.text), false⟩, ?_, ?_⟩
      · simp [package_mode, hpost]
      · simp [hb]
    · intro hc
      exact absurd hc hpost

/-- C6 (witness): a 200 submission, failed polling, non-restarting
install, 204 cache-clear reply. -/
theorem C6_clear_cache_amended_witness :
    (∃ run, package_mode ⟨200, "", none⟩ .failure false ⟨204, "", none⟩ = some run ∧
       run.clear_issued = ((HttpResp.status ⟨200, "", none⟩ == 200) && !false)) ∧
    (HttpResp.status ⟨200, "", none⟩ = 200 → false = false →
       HttpResp.status ⟨204, "", none⟩ ≠ 204 →
       package_mode ⟨200, "", none⟩ .failure false ⟨204, "", none⟩
         = some ⟨.err ("clear_cache returned "
             ++ toString (HttpResp.status ⟨204, "", none⟩) ++ ": "
             ++ HttpResp.text ⟨204, "", none⟩), true⟩) :=
  C6_clear_cache_amended ⟨200, "", none⟩ .failure false ⟨204, "", none⟩ (by decide)

/-- C9 (code_bug): a package-mode install whose submission succeeds
(HTTP 200) but whose polling phase reports failure falls through to
`return 0`: the restarting branch returns 0 without any error, and the
non-restarting branch likewise returns 0 after its cache clear.  The
playground branch of the same function returns 1 on the same polling
failure (line 501), and the spec requires a non-zero exit — the
missing failure return in the package branch is a slip. -/
theorem C9_package_failure_returns_zero :
    package_mode ⟨200, "", none⟩ .failure true ⟨204, "", none⟩
      = some ⟨.retcode 0, false⟩ ∧
    package_mode ⟨200, "", none⟩ .failure false ⟨204, "", none⟩
      = some ⟨.retcode 0, true⟩ := by decide

end Dacli
